import Mathlib

/-!
Shallow embedding of the `lerobot` OAK-D camera driver and Ned2 follower driver

This file embeds the two device drivers of the repository:

* `src/lerobot/cameras/oakd/camera_oakd.py` (`OakDCamera`), and
* `src/lerobot/robots/ned2_follower/ned2_follower.py` (`Ned2Follower`)
  with its configuration `config_ned2_follower.py`,

as pure Lean functions.  Mutable Python objects become explicit state
records that every operation threads through; a `raise` becomes an
`Except` error result together with the state reached when the exception
escapes; every call into one of the two vendor SDKs (depthai, pyniryo)
is recorded in an explicit trace of `SdkCall`s, so that "the operation
performs no vendor SDK call" is a statement about that trace.

Vendor behaviour that the repository does not implement is modelled by
parameters: a `DaiDevice` carries the stream of frames the depthai queue
would deliver, a `NiryoRobot` carries the joint read-back and the
calibration flag, and the host-framework helper
`ensure_safe_goal_position` (imported by the driver from
`lerobot.robots.utils`, outside this repository) is passed to
`send_action` as an explicit function argument.  Joint positions are
carried as integers: the driver never computes with them, it only moves
them between dictionaries and vendor calls.
-/

namespace LeRobot

/-- The exceptions the drivers raise: `DeviceNotConnectedError`,
`DeviceAlreadyConnectedError`, the Python `TimeoutError` (from
`async_read`) and the Python `KeyError` (from `present_pos[key]`). -/
inductive DevErr where
  | notConnected
  | alreadyConnected
  | timeout
  | keyError
  deriving DecidableEq, Repr

/-- Colour channel order of a frame; `read` converts BGR to RGB via
`cv2.cvtColor(frame, cv2.COLOR_BGR2RGB)`. -/
inductive ColorOrder where
  | bgr
  | rgb
  deriving DecidableEq, Repr

/-- An image frame: its channel order plus abstract pixel content. -/
structure Frame where
  order : ColorOrder
  pix : Nat
  deriving DecidableEq, Repr

/-- Python `cv2.cvtColor(frame, cv2.COLOR_BGR2RGB)`: same pixels, RGB order. -/
def cvtBGR2RGB (f : Frame) : Frame :=
  { f with order := ColorOrder.rgb }

/-- One call into a vendor SDK (depthai `dai.*` or pyniryo
`NiryoRobot.*`).  Arguments that later claims inspect are recorded. -/
inductive SdkCall where
  | daiPipeline
  | daiCreateColorCamera
  | daiCreateXLinkOut
  | daiDevice
  | daiGetOutputQueue
  | daiQueueGet
  | daiDeviceClose
  | niryoRobotInit
  | niryoNeedCalibration
  | niryoCalibrateAuto
  | niryoSetLearningMode (enabled : Bool)
  | niryoGetJoints
  | niryoMoveJoints (j1 j2 j3 j4 j5 j6 : ℤ)
  | niryoCloseConnection
  deriving DecidableEq, Repr

/-! ## OAK-D camera (`camera_oakd.py`) -/

/-- Python `OakDCameraConfig` from `configuration_oakd.py` (fps/width/height
inherited from `CameraConfig`, plus the board socket). -/
structure OakDCameraConfig where
  fps : Nat
  width : Nat
  height : Nat
  socket : String
  deriving DecidableEq, Repr

/-- The vendor side of a connected `dai.Device`: the stream of frames
its output queue delivers, in order.  The queue hands out BGR preview
frames (`setInterleaved(True)  # BGR format`). -/
structure DaiDevice where
  frames : Nat → Frame

/-- State of an `OakDCamera` object.  `device = none` is the Python
`self.device is None`; `frames_read` is the position in the device
frame stream reached by `queue.get()` calls; `thread_alive`,
`stop_event_set`, `latest_frame` and `new_frame_event` mirror the
async-reading fields of `__init__`. -/
structure OakDCamera where
  config : OakDCameraConfig
  device : Option DaiDevice
  frames_read : Nat
  thread_alive : Bool
  stop_event_set : Bool
  latest_frame : Option Frame
  new_frame_event : Bool

/-- Python `OakDCamera.__init__`: no device, no thread, empty mailbox. -/
def OakDCamera.init (config : OakDCameraConfig) : OakDCamera :=
  { config := config
    device := none
    frames_read := 0
    thread_alive := false
    stop_event_set := false
    latest_frame := none
    new_frame_event := false }

/-- Python `OakDCamera.is_connected`: `self.device is not None`. -/
def OakDCamera.is_connected (c : OakDCamera) : Bool :=
  c.device.isSome

/-- Python `OakDCamera.read`: raise `DeviceNotConnectedError` when not
connected; otherwise `queue.get()` (one `daiQueueGet` SDK call,
advancing the stream) and convert BGR to RGB. -/
def OakDCamera.read (c : OakDCamera) :
    Except DevErr Frame × OakDCamera × List SdkCall :=
  match c.device with
  | none => (Except.error DevErr.notConnected, c, [])
  | some dev =>
      (Except.ok (cvtBGR2RGB (dev.frames c.frames_read)),
       { c with frames_read := c.frames_read + 1 },
       [SdkCall.daiQueueGet])

/-- The frame the next `read` would return on a connected camera. -/
def OakDCamera.currentFrame (c : OakDCamera) : Option Frame :=
  (c.device.map fun dev => cvtBGR2RGB (dev.frames c.frames_read))

/-- The warmup loop in `connect`: `for _ in range(5): self.read()`. -/
def OakDCamera.warmupReads : Nat → OakDCamera → OakDCamera × List SdkCall
  | 0, c => (c, [])
  | n + 1, c =>
      match c.read with
      | (_, c', tr) =>
          match OakDCamera.warmupReads n c' with
          | (c'', tr') => (c'', tr ++ tr')

/-- Python `OakDCamera._start_read_thread`: if a live thread exists, return;
otherwise make a fresh (unset) stop event and start the loop thread. -/
def OakDCamera.start_read_thread (c : OakDCamera) : OakDCamera :=
  if c.thread_alive then c
  else { c with stop_event_set := false, thread_alive := true }

/-- Python `OakDCamera.connect`: raise `DeviceAlreadyConnectedError` when
already connected; otherwise build the pipeline, open the device and
queue (the vendor hands us `dev`), optionally warm up with 5 reads,
then start the read thread. -/
def OakDCamera.connect (warmup : Bool) (dev : DaiDevice) (c : OakDCamera) :
    Except DevErr Unit × OakDCamera × List SdkCall :=
  if c.is_connected then (Except.error DevErr.alreadyConnected, c, [])
  else
    let tr0 := [SdkCall.daiPipeline, SdkCall.daiCreateColorCamera,
                SdkCall.daiCreateXLinkOut, SdkCall.daiDevice,
                SdkCall.daiGetOutputQueue]
    let c1 : OakDCamera := { c with device := some dev, frames_read := 0 }
    let w := if warmup then OakDCamera.warmupReads 5 c1 else (c1, [])
    let c2 := w.1.start_read_thread
    (Except.ok (), c2, tr0 ++ w.2)

/-- Python `OakDCamera._stop_read_thread`: set the stop event and join. -/
def OakDCamera.stop_read_thread (c : OakDCamera) : OakDCamera :=
  { c with stop_event_set := true, thread_alive := false }

/-- Python `OakDCamera.disconnect`: raise `DeviceNotConnectedError` when not
connected; otherwise stop the read thread and `device.close()`. -/
def OakDCamera.disconnect (c : OakDCamera) :
    Except DevErr Unit × OakDCamera × List SdkCall :=
  if !c.is_connected then (Except.error DevErr.notConnected, c, [])
  else
    let c1 := c.stop_read_thread
    (Except.ok (), { c1 with device := none }, [SdkCall.daiDeviceClose])

/-! ### The background read loop (`_read_loop`) and the mailbox

The read loop and `async_read` run concurrently in Python.  We model
them over discrete time: a *publication schedule* `pubs : List (Option
Frame)` lists, tick by tick, the frame (if any) the background thread
publishes to the single-slot mailbox while a reader waits. -/

/-- One publication by the read loop, as seen by a waiting reader:
`self.latest_frame = frame` under the lock, then
`self.new_frame_event.set()`. -/
def OakDCamera.applyPub (c : OakDCamera) : Option Frame → OakDCamera
  | none => c
  | some f => { c with latest_frame := some f, new_frame_event := true }

/-- Python `new_frame_event.wait(timeout)` against a publication schedule: at
each tick the event is polled; the wait resolves (returning the state at
that moment) as soon as the event is set, and times out when the
schedule is exhausted with the event still clear. -/
def OakDCamera.waitWindow (c : OakDCamera) :
    List (Option Frame) → Option OakDCamera
  | [] => if c.new_frame_event then some c else none
  | p :: rest =>
      if c.new_frame_event then some c
      else OakDCamera.waitWindow (c.applyPub p) rest

/-- Python `OakDCamera.async_read`: raise `DeviceNotConnectedError` when not
connected; restart the read thread if it died; wait on
`new_frame_event` for the window `pubs`, raising `TimeoutError` if it
never becomes set; otherwise take `latest_frame` under the lock and
clear the event. -/
def OakDCamera.async_read (pubs : List (Option Frame)) (c : OakDCamera) :
    Except DevErr (Option Frame) × OakDCamera × List SdkCall :=
  if !c.is_connected then (Except.error DevErr.notConnected, c, [])
  else
    let c1 := c.start_read_thread
    match c1.waitWindow pubs with
    | none => (Except.error DevErr.timeout, c1, [])
    | some c2 =>
        (Except.ok c2.latest_frame, { c2 with new_frame_event := false }, [])

/-- One iteration of the `while` body of `_read_loop`, returning the new
camera state and whether the loop continues: exit if the stop event is
set; `read` a frame and publish it to the mailbox; break on
`DeviceNotConnectedError`; log and continue on other errors. -/
def OakDCamera.readLoopStep (c : OakDCamera) : OakDCamera × Bool :=
  if c.stop_event_set then (c, false)
  else
    match c.read with
    | (Except.error DevErr.notConnected, c', _) => (c', false)
    | (Except.error _, c', _) => (c', true)
    | (Except.ok f, c', _) =>
        ({ c' with latest_frame := some f, new_frame_event := true }, true)

/-- Runs `n` iterations of the read loop (stopping early when the loop body
exits). -/
def OakDCamera.readLoopRun : Nat → OakDCamera → OakDCamera
  | 0, c => c
  | n + 1, c =>
      match c.readLoopStep with
      | (c', true) => OakDCamera.readLoopRun n c'
      | (c', false) => c'

/-! ## Ned2 follower robot (`ned2_follower.py`, `config_ned2_follower.py`) -/

/-- Python `max_relative_target` is `float | dict[str, float] | None`; this is
the non-`None` part. -/
inductive MaxRelTarget where
  | scalar (v : ℤ)
  | perJoint (d : List (String × ℤ))
  deriving DecidableEq, Repr

/-- Python `Ned2FollowerConfig` from `config_ned2_follower.py`. -/
structure Ned2FollowerConfig where
  ip_address : String
  port : Nat
  joint_limits : List (String × (ℤ × ℤ))
  max_relative_target : Option MaxRelTarget
  cameras : List (String × OakDCameraConfig)
  has_gripper : Bool
  disable_torque_on_disconnect : Bool
  calibrate_on_connect : Bool

/-- The dataclass defaults of `Ned2FollowerConfig` (joint limits elided
to zero bounds: the driver never reads them). -/
def Ned2FollowerConfig.default : Ned2FollowerConfig :=
  { ip_address := "192.168.8.143"
    port := 40001
    joint_limits := [("joint_1", (0, 0)), ("joint_2", (0, 0)),
                     ("joint_3", (0, 0)), ("joint_4", (0, 0)),
                     ("joint_5", (0, 0)), ("joint_6", (0, 0))]
    max_relative_target := none
    cameras := [("top", { fps := 30, width := 640, height := 480,
                          socket := "CAM_A" })]
    has_gripper := true
    disable_torque_on_disconnect := false
    calibrate_on_connect := false }

/-- The vendor side of a connected `pyniryo.NiryoRobot`: what
`robot.joints` reads back (six values) and what `need_calibration()`
answers. -/
structure NiryoRobot where
  joints : Fin 6 → ℤ
  needs_calibration : Bool

/-- State of a `Ned2Follower` object: its config, the `self.robot`
handle (`None` until `connect`), and the camera objects built by
`make_cameras_from_configs(config.cameras)`. -/
structure Ned2Follower where
  config : Ned2FollowerConfig
  robot : Option NiryoRobot
  cameras : List (String × OakDCamera)

/-- Python `Ned2Follower.__init__`: `self.robot = None`;
`self.cameras = make_cameras_from_configs(config.cameras)`. -/
def Ned2Follower.init (config : Ned2FollowerConfig) : Ned2Follower :=
  { config := config
    robot := none
    cameras := config.cameras.map fun nc => (nc.1, OakDCamera.init nc.2) }

/-- A value in an observation dictionary: a float (joint position) or
an image (camera frame). -/
inductive ObsVal where
  | num (v : ℤ)
  | img (f : Frame)
  deriving DecidableEq, Repr

/-- A feature type in `observation_features` / `action_features`:
the Python `float` class, or a `(height, width, channels)` shape tuple.
`missing` marks the `KeyError` Python would raise if a camera name were
absent from `config.cameras`. -/
inductive FeatureTy where
  | float
  | shape (h w c : Nat)
  | missing
  deriving DecidableEq, Repr

/-- First-match association-list lookup: Python `d[k]` / `d.get(k)` for
dictionaries (whose keys are unique). -/
def dlookup (k : String) : List (String × α) → Option α
  | [] => none
  | kv :: rest => if kv.1 = k then some kv.2 else dlookup k rest

/-- Python `Ned2Follower._motors_ft`: the six joint-position features. -/
def Ned2Follower.motors_ft : List (String × FeatureTy) :=
  [("joint_1.pos", FeatureTy.float), ("joint_2.pos", FeatureTy.float),
   ("joint_3.pos", FeatureTy.float), ("joint_4.pos", FeatureTy.float),
   ("joint_5.pos", FeatureTy.float), ("joint_6.pos", FeatureTy.float)]

/-- Python `Ned2Follower._cameras_ft`: for each camera name in `self.cameras`,
the `(height, width, 3)` shape read from `self.config.cameras[cam]`. -/
def Ned2Follower.cameras_ft (r : Ned2Follower) : List (String × FeatureTy) :=
  r.cameras.map fun nc =>
    (nc.1,
     match dlookup nc.1 r.config.cameras with
     | some cfg => FeatureTy.shape cfg.height cfg.width 3
     | none => FeatureTy.missing)

/-- Python `Ned2Follower.observation_features`:
`{**self._motors_ft, **self._cameras_ft}`. -/
def Ned2Follower.observation_features (r : Ned2Follower) :
    List (String × FeatureTy) :=
  Ned2Follower.motors_ft ++ r.cameras_ft

/-- Python `Ned2Follower.action_features`: `self._motors_ft`. -/
def Ned2Follower.action_features (_ : Ned2Follower) :
    List (String × FeatureTy) :=
  Ned2Follower.motors_ft

/-- Python `Ned2Follower.is_connected`: `self.robot is not None and all
cameras are connected`. -/
def Ned2Follower.is_connected (r : Ned2Follower) : Bool :=
  r.robot.isSome && r.cameras.all fun nc => nc.2.is_connected

/-- Python `Ned2Follower.is_calibrated`: `True` when `self.robot is None`,
otherwise `not self.robot.need_calibration()`. -/
def Ned2Follower.is_calibrated (r : Ned2Follower) : Bool :=
  match r.robot with
  | none => true
  | some rb => !rb.needs_calibration

/-- The `for cam in self.cameras.values(): cam.connect()` loop of
`Ned2Follower.connect`; `devFor` says which depthai device each camera
finds.  On a camera error the loop stops with that exception. -/
def connectCams (devFor : String → DaiDevice) :
    List (String × OakDCamera) →
      Except DevErr Unit × List (String × OakDCamera) × List SdkCall
  | [] => (Except.ok (), [], [])
  | (n, cam) :: rest =>
      match cam.connect true (devFor n) with
      | (Except.error e, cam', tr) => (Except.error e, (n, cam') :: rest, tr)
      | (Except.ok _, cam', tr) =>
          match connectCams devFor rest with
          | (res, rest', tr') => (res, (n, cam') :: rest', tr ++ tr')

/-- Python `Ned2Follower.connect`: raise `DeviceAlreadyConnectedError` when
already connected; otherwise `NiryoRobot(ip)` (the vendor hands us
`newRobot`), optionally auto-calibrate, connect the cameras, then
`configure()` (learning mode on, then off). -/
def Ned2Follower.connect (calibrate : Bool) (newRobot : NiryoRobot)
    (devFor : String → DaiDevice) (r : Ned2Follower) :
    Except DevErr Unit × Ned2Follower × List SdkCall :=
  if r.is_connected then (Except.error DevErr.alreadyConnected, r, [])
  else
    let tr0 := [SdkCall.niryoRobotInit]
    let cal :=
      if calibrate && r.config.calibrate_on_connect then
        if newRobot.needs_calibration then
          ({ newRobot with needs_calibration := false },
           [SdkCall.niryoNeedCalibration, SdkCall.niryoCalibrateAuto])
        else (newRobot, [SdkCall.niryoNeedCalibration])
      else (newRobot, [])
    match connectCams devFor r.cameras with
    | (Except.error e, cams', tr2) =>
        (Except.error e, { r with robot := some cal.1, cameras := cams' },
         tr0 ++ cal.2 ++ tr2)
    | (Except.ok _, cams', tr2) =>
        (Except.ok (), { r with robot := some cal.1, cameras := cams' },
         tr0 ++ cal.2 ++ tr2 ++
           [SdkCall.niryoSetLearningMode true,
            SdkCall.niryoSetLearningMode false])

/-- The camera-capture loop of `get_observation`: `obs_dict[cam_key] =
cam.read()` for each camera, threading a possible camera exception. -/
def readCams : List (String × OakDCamera) →
    Except DevErr (List (String × ObsVal)) ×
      List (String × OakDCamera) × List SdkCall
  | [] => (Except.ok [], [], [])
  | (n, cam) :: rest =>
      match cam.read with
      | (Except.error e, cam', tr) => (Except.error e, (n, cam') :: rest, tr)
      | (Except.ok f, cam', tr) =>
          match readCams rest with
          | (Except.error e, rest', tr') =>
              (Except.error e, (n, cam') :: rest', tr ++ tr')
          | (Except.ok obs, rest', tr') =>
              (Except.ok ((n, ObsVal.img f) :: obs),
               (n, cam') :: rest', tr ++ tr')

/-- Python `Ned2Follower.get_observation`: raise `DeviceNotConnectedError`
when not connected; read the six joints from `self.robot.joints` into
`joint_k.pos` entries, then append one entry per camera from
`cam.read()`. -/
def Ned2Follower.get_observation (r : Ned2Follower) :
    Except DevErr (List (String × ObsVal)) × Ned2Follower × List SdkCall :=
  if !r.is_connected then (Except.error DevErr.notConnected, r, [])
  else
    match r.robot with
    | none => (Except.error DevErr.notConnected, r, [])
    | some rb =>
        let base :=
          [("joint_1.pos", ObsVal.num (rb.joints 0)),
           ("joint_2.pos", ObsVal.num (rb.joints 1)),
           ("joint_3.pos", ObsVal.num (rb.joints 2)),
           ("joint_4.pos", ObsVal.num (rb.joints 3)),
           ("joint_5.pos", ObsVal.num (rb.joints 4)),
           ("joint_6.pos", ObsVal.num (rb.joints 5))]
        match readCams r.cameras with
        | (Except.error e, cams', tr) =>
            (Except.error e, { r with cameras := cams' },
             SdkCall.niryoGetJoints :: tr)
        | (Except.ok camObs, cams', tr) =>
            (Except.ok (base ++ camObs), { r with cameras := cams' },
             SdkCall.niryoGetJoints :: tr)

/-- Python `key.endswith(".pos")`: `".pos"` is a suffix of the key
characters. -/
def endsWithPos (s : String) : Bool :=
  decide (".pos".data <:+ s.data)

/-- Python `key.removesuffix(".pos")` for a key that ends in `".pos"`. -/
def stripPos (s : String) : String :=
  String.mk (s.data.take (s.data.length - 4))

/-- Python `f"{motor}.pos"`. -/
def addPos (s : String) : String :=
  s ++ ".pos"

/-- The goal-extraction comprehension of `send_action`:
`{key.removesuffix(".pos"): val for key, val in action.items() if
key.endswith(".pos")}`. -/
def extractGoalPos (action : List (String × ℤ)) : List (String × ℤ) :=
  (action.filter fun kv => endsWithPos kv.1).map fun kv =>
    (stripPos kv.1, kv.2)

/-- The six joint names, in joint order. -/
def jointNames : List String :=
  ["joint_1", "joint_2", "joint_3", "joint_4", "joint_5", "joint_6"]

/-- The `present_pos` comprehension of `send_action`:
`{f"joint_{i+1}": present_joints[i] for i in range(6)}`. -/
def presentPos (rb : NiryoRobot) : List (String × ℤ) :=
  [("joint_1", rb.joints 0), ("joint_2", rb.joints 1),
   ("joint_3", rb.joints 2), ("joint_4", rb.joints 3),
   ("joint_5", rb.joints 4), ("joint_6", rb.joints 5)]

/-- The pairing comprehension `{key: (g_pos, present_pos[key]) for key,
g_pos in goal_pos.items()}`; `present_pos[key]` raises `KeyError` when
`key` is not a joint name. -/
def pairWithPresent (present : List (String × ℤ)) :
    List (String × ℤ) → Except DevErr (List (String × (ℤ × ℤ)))
  | [] => Except.ok []
  | (k, g) :: rest =>
      match dlookup k present with
      | none => Except.error DevErr.keyError
      | some p =>
          match pairWithPresent present rest with
          | Except.error e => Except.error e
          | Except.ok tail => Except.ok ((k, (g, p)) :: tail)

/-- Python `Ned2Follower.send_action`: raise `DeviceNotConnectedError` when
not connected; extract the `.pos` goals; when
`config.max_relative_target` is set, read the present joints, pair each
goal with its present position and pass the pairs through the
host-framework helper `ensure_safe_goal_position` (the explicit
argument `esgp`, since `lerobot.robots.utils` is outside this
repository); command `move_joints` with the six goals (0 when a joint
is absent); return the goals with the `.pos` suffix restored. -/
def Ned2Follower.send_action
    (esgp : List (String × (ℤ × ℤ)) → MaxRelTarget → List (String × ℤ))
    (action : List (String × ℤ)) (r : Ned2Follower) :
    Except DevErr (List (String × ℤ)) × Ned2Follower × List SdkCall :=
  if !r.is_connected then (Except.error DevErr.notConnected, r, [])
  else
    match r.robot with
    | none => (Except.error DevErr.notConnected, r, [])
    | some rb =>
        let goal0 := extractGoalPos action
        let clamped :
            Except DevErr (List (String × ℤ)) × List SdkCall :=
          match r.config.max_relative_target with
          | none => (Except.ok goal0, [])
          | some m =>
              match pairWithPresent (presentPos rb) goal0 with
              | Except.error e => (Except.error e, [SdkCall.niryoGetJoints])
              | Except.ok pairs =>
                  (Except.ok (esgp pairs m), [SdkCall.niryoGetJoints])
        match clamped with
        | (Except.error e, tr) => (Except.error e, r, tr)
        | (Except.ok goal, tr) =>
            let j := fun k => (dlookup k goal).getD 0
            (Except.ok (goal.map fun kv => (addPos kv.1, kv.2)), r,
             tr ++ [SdkCall.niryoMoveJoints (j "joint_1") (j "joint_2")
                      (j "joint_3") (j "joint_4") (j "joint_5")
                      (j "joint_6")])

/-- The `for cam in self.cameras.values(): cam.disconnect()` loop of
`Ned2Follower.disconnect`. -/
def disconnectCams : List (String × OakDCamera) →
    Except DevErr Unit × List (String × OakDCamera) × List SdkCall
  | [] => (Except.ok (), [], [])
  | (n, cam) :: rest =>
      match cam.disconnect with
      | (Except.error e, cam', tr) => (Except.error e, (n, cam') :: rest, tr)
      | (Except.ok _, cam', tr) =>
          match disconnectCams rest with
          | (res, rest', tr') => (res, (n, cam') :: rest', tr ++ tr')

/-- Python `Ned2Follower.disconnect`: raise `DeviceNotConnectedError` when not
connected; otherwise `close_connection()`, drop the handle, and
disconnect every camera. -/
def Ned2Follower.disconnect (r : Ned2Follower) :
    Except DevErr Unit × Ned2Follower × List SdkCall :=
  if !r.is_connected then (Except.error DevErr.notConnected, r, [])
  else
    match disconnectCams r.cameras with
    | (res, cams', tr) =>
        (res, { r with robot := none, cameras := cams' },
         SdkCall.niryoCloseConnection :: tr)

/-! ## Derived observers and sample states -/

/-- The position the final `move_joints` call of a trace commands for
the `i`-th joint, if the trace ends in a `move_joints` call. -/
def commandedJoint (tr : List SdkCall) (i : Fin 6) : Option ℤ :=
  match tr.getLast? with
  | some (SdkCall.niryoMoveJoints j1 j2 j3 j4 j5 j6) =>
      some ([j1, j2, j3, j4, j5, j6].get i)
  | _ => none

/-- A concrete stand-in for the host framework helper
`ensure_safe_goal_position` used by witnesses: it keeps every goal
unchanged (and hence preserves the key list). -/
def esgpId : List (String × (ℤ × ℤ)) → MaxRelTarget → List (String × ℤ) :=
  fun d _ => d.map fun kv => (kv.1, kv.2.1)

/-- A sample depthai device delivering BGR frames numbered by position. -/
def dev0 : DaiDevice :=
  { frames := fun n => { order := ColorOrder.bgr, pix := n } }

/-- A sample camera configuration. -/
def cfg0 : OakDCameraConfig :=
  { fps := 30, width := 640, height := 480, socket := "CAM_A" }

/-- A connected sample camera. -/
def camConnected : OakDCamera :=
  { config := cfg0
    device := some dev0
    frames_read := 0
    thread_alive := true
    stop_event_set := false
    latest_frame := none
    new_frame_event := false }

/-- A never-connected sample camera. -/
def camDisconnected : OakDCamera :=
  OakDCamera.init cfg0

/-- A sample frame sitting in the mailbox slot. -/
def framePre : Frame :=
  { order := ColorOrder.rgb, pix := 7 }

/-- A connected sample camera whose new-frame event is already set from
an earlier, not yet consumed publication of `framePre`. -/
def camPre : OakDCamera :=
  { config := cfg0
    device := some dev0
    frames_read := 0
    thread_alive := true
    stop_event_set := false
    latest_frame := some framePre
    new_frame_event := true }

/-- A sample vendor robot handle. -/
def rb0 : NiryoRobot :=
  { joints := fun i => (i : ℤ) + 1, needs_calibration := false }

/-- A fully connected sample follower. -/
def nedConnected : Ned2Follower :=
  { config := Ned2FollowerConfig.default
    robot := some rb0
    cameras := [("top", camConnected)] }

/-- A never-connected sample follower. -/
def nedDisconnected : Ned2Follower :=
  Ned2Follower.init Ned2FollowerConfig.default

/-- A follower with a robot handle but a disconnected camera. -/
def nedHalf : Ned2Follower :=
  { config := Ned2FollowerConfig.default
    robot := some rb0
    cameras := [("top", camDisconnected)] }

/-- A connected sample follower whose config sets a safety limit. -/
def nedClamped : Ned2Follower :=
  { config := { Ned2FollowerConfig.default with
                  max_relative_target := some (MaxRelTarget.scalar 5) }
    robot := some rb0
    cameras := [("top", camConnected)] }

/-- A sample action naming all six joints. -/
def actionSample : List (String × ℤ) :=
  [("joint_1.pos", 10), ("joint_2.pos", 20), ("joint_3.pos", 30),
   ("joint_4.pos", 40), ("joint_5.pos", 50), ("joint_6.pos", 60)]

/-- A sample action in which `joint_1.pos` is absent. -/
def actionMissing : List (String × ℤ) :=
  [("joint_2.pos", 20)]

/-- The goal/present pairs produced for `actionSample` against the
joint read-back of `rb0`. -/
def pairsSample : List (String × (ℤ × ℤ)) :=
  [("joint_1", (10, 1)), ("joint_2", (20, 2)), ("joint_3", (30, 3)),
   ("joint_4", (40, 4)), ("joint_5", (50, 5)), ("joint_6", (60, 6))]

/-! ## Helper lemmas -/

lemma mk_data_eq (s : String) : String.mk s.data = s := by
  cases s
  rfl

lemma endsWithPos_iff (s : String) :
    endsWithPos s = true ↔ ".pos".data <:+ s.data := by
  simp [endsWithPos]

lemma endsWithPos_addPos (s : String) : endsWithPos (addPos s) = true := by
  simp [endsWithPos, addPos, String.data_append]

lemma stripPos_addPos (s : String) : stripPos (addPos s) = s := by
  have h : (s ++ ".pos").data = s.data ++ ".pos".data :=
    String.data_append s ".pos"
  unfold stripPos addPos
  rw [h]
  simp

lemma addPos_stripPos (s : String) (h : endsWithPos s = true) :
    addPos (stripPos s) = s := by
  obtain ⟨t, ht⟩ := (endsWithPos_iff s).mp h
  have hs : stripPos s = String.mk t := by
    unfold stripPos
    rw [← ht]
    exact congrArg String.mk (by simp)
  rw [addPos, hs]
  calc String.mk t ++ ".pos"
      = String.mk ((String.mk t ++ ".pos").data) := (mk_data_eq _).symm
    _ = String.mk (t ++ ".pos".data) := by
        exact congrArg String.mk (by simp [String.data_append])
    _ = String.mk s.data := by rw [ht]
    _ = s := mk_data_eq s

lemma dlookup_eq_none_iff {α : Type} (k : String) (l : List (String × α)) :
    dlookup k l = none ↔ k ∉ l.map Prod.fst := by
  induction l with
  | nil => simp [dlookup]
  | cons kv rest ih =>
      by_cases h : kv.1 = k
      · simp [dlookup, h]
      · simp [dlookup, h, ih, Ne.symm h]

lemma dlookup_mem_of_nodup {α : Type} {l : List (String × α)}
    (hnd : (l.map Prod.fst).Nodup) {kv : String × α} (hm : kv ∈ l) :
    dlookup kv.1 l = some kv.2 := by
  induction l with
  | nil => cases hm
  | cons hd rest ih =>
      rcases List.mem_cons.mp hm with h | h
      · subst h
        simp [dlookup]
      · have hne : hd.1 ≠ kv.1 := by
          intro he
          have : kv.1 ∈ rest.map Prod.fst :=
            List.mem_map_of_mem Prod.fst h
          rw [← he] at this
          exact (List.nodup_cons.mp hnd).1 this
        simp only [dlookup, if_neg hne]
        exact ih (List.nodup_cons.mp hnd).2 h

lemma extractGoalPos_cons (kv : String × ℤ) (rest : List (String × ℤ)) :
    extractGoalPos (kv :: rest) =
      if endsWithPos kv.1 then
        (stripPos kv.1, kv.2) :: extractGoalPos rest
      else extractGoalPos rest := by
  by_cases h : endsWithPos kv.1 <;>
    simp [extractGoalPos, List.filter_cons, h]

lemma extractGoalPos_mem (action : List (String × ℤ)) (k : String) (v : ℤ) :
    (k, v) ∈ extractGoalPos action ↔ (addPos k, v) ∈ action := by
  induction action with
  | nil => simp [extractGoalPos]
  | cons kv rest ih =>
      obtain ⟨k', v'⟩ := kv
      rw [extractGoalPos_cons, List.mem_cons]
      by_cases h : endsWithPos (k', v').1 = true
      · rw [if_pos h, List.mem_cons]
        constructor
        · rintro (he | hm)
          · left
            have h1 : k = stripPos k' := congrArg Prod.fst he
            have h2 : v = v' := congrArg Prod.snd he
            rw [h1, h2, addPos_stripPos k' h]
          · right
            exact ih.mp hm
        · rintro (he | hm)
          · left
            have h1 : addPos k = k' := congrArg Prod.fst he
            have h2 : v = v' := congrArg Prod.snd he
            rw [h2, ← h1, stripPos_addPos]
          · right
            exact ih.mpr hm
      · rw [if_neg h]
        constructor
        · exact fun hm => Or.inr (ih.mp hm)
        · rintro (he | hm)
          · exfalso
            have h1 : addPos k = k' := congrArg Prod.fst he
            rw [← h1] at h
            exact h (endsWithPos_addPos k)
          · exact ih.mpr hm

lemma dlookup_extractGoalPos_eq_none (action : List (String × ℤ))
    (k : String) (habs : addPos k ∉ action.map Prod.fst) :
    dlookup k (extractGoalPos action) = none := by
  rw [dlookup_eq_none_iff]
  intro hk
  obtain ⟨kv, hm, he⟩ := List.mem_map.mp hk
  obtain ⟨k', v⟩ := kv
  have he' : k' = k := he
  subst he'
  have hmem := (extractGoalPos_mem action k' v).mp hm
  exact habs (List.mem_map_of_mem Prod.fst hmem)

lemma pairWithPresent_ok {present : List (String × ℤ)}
    {goal : List (String × ℤ)} {pairs : List (String × (ℤ × ℤ))}
    (h : pairWithPresent present goal = Except.ok pairs) :
    pairs.map (fun kv => (kv.1, kv.2.1)) = goal ∧
      ∀ kv ∈ pairs, dlookup kv.1 present = some kv.2.2 := by
  induction goal generalizing pairs with
  | nil =>
      simp only [pairWithPresent] at h
      cases h
      simp
  | cons kv rest ih =>
      obtain ⟨k, g⟩ := kv
      simp only [pairWithPresent] at h
      cases hl : dlookup k present with
      | none => rw [hl] at h; cases h
      | some p =>
          rw [hl] at h
          cases ht : pairWithPresent present rest with
          | error e => rw [ht] at h; cases h
          | ok tail =>
              rw [ht] at h
              cases h
              obtain ⟨ih1, ih2⟩ := ih ht
              refine ⟨by simp [ih1], ?_⟩
              intro kv hm
              rcases List.mem_cons.mp hm with h | h
              · subst h
                exact hl
              · exact ih2 kv h

lemma device_none_of_not_connected {c : OakDCamera}
    (h : c.is_connected = false) : c.device = none := by
  unfold OakDCamera.is_connected at h
  cases hd : c.device with
  | none => rfl
  | some dev => rw [hd] at h; cases h

lemma device_some_of_connected {c : OakDCamera}
    (h : c.is_connected = true) : ∃ dev, c.device = some dev := by
  unfold OakDCamera.is_connected at h
  cases hd : c.device with
  | none => rw [hd] at h; cases h
  | some dev => exact ⟨dev, rfl⟩

lemma robot_some_of_connected {r : Ned2Follower}
    (h : r.is_connected = true) : ∃ rb, r.robot = some rb := by
  unfold Ned2Follower.is_connected at h
  cases hr : r.robot with
  | none => rw [hr] at h; cases h
  | some rb => exact ⟨rb, rfl⟩

lemma cameras_connected_of_connected {r : Ned2Follower}
    (h : r.is_connected = true) :
    ∀ nc ∈ r.cameras, nc.2.is_connected = true := by
  unfold Ned2Follower.is_connected at h
  have := (Bool.and_eq_true _ _).mp h |>.2
  intro nc hm
  exact List.all_eq_true.mp this nc hm

lemma start_read_thread_fields (c : OakDCamera) :
    (c.start_read_thread).new_frame_event = c.new_frame_event ∧
      (c.start_read_thread).latest_frame = c.latest_frame ∧
      (c.start_read_thread).device = c.device := by
  by_cases h : c.thread_alive <;>
    simp [OakDCamera.start_read_thread, h]

lemma waitWindow_of_event {c : OakDCamera} (h : c.new_frame_event = true) :
    ∀ pubs, c.waitWindow pubs = some c := by
  intro pubs
  cases pubs <;> simp [OakDCamera.waitWindow, h]

lemma waitWindow_none_iff (pubs : List (Option Frame)) (c : OakDCamera) :
    c.waitWindow pubs = none ↔
      (c.new_frame_event = false ∧ ∀ p ∈ pubs, p = none) := by
  induction pubs generalizing c with
  | nil => by_cases h : c.new_frame_event <;> simp [OakDCamera.waitWindow, h]
  | cons p rest ih =>
      by_cases h : c.new_frame_event
      · simp [OakDCamera.waitWindow, h]
      · cases p with
        | none =>
            have h1 : c.waitWindow (none :: rest) = c.waitWindow rest := by
              simp only [OakDCamera.waitWindow]
              rw [if_neg h]
              rfl
            rw [h1, ih c]
            constructor
            · rintro ⟨he, hall⟩
              refine ⟨he, ?_⟩
              intro p hp
              rcases List.mem_cons.mp hp with h' | h'
              · exact h'
              · exact hall p h'
            · rintro ⟨he, hall⟩
              exact ⟨he, fun p hp => hall p (List.mem_cons_of_mem _ hp)⟩
        | some f =>
            have hev : (c.applyPub (some f)).new_frame_event = true := rfl
            have h1 : c.waitWindow (some f :: rest) =
                some (c.applyPub (some f)) := by
              simp only [OakDCamera.waitWindow]
              rw [if_neg h]
              exact waitWindow_of_event hev rest
            rw [h1]
            simp [h]

lemma waitWindow_first_pub {c : OakDCamera}
    (hev : c.new_frame_event = false) :
    ∀ (pre : List (Option Frame)), (∀ p ∈ pre, p = none) →
      ∀ (f : Frame) (rest : List (Option Frame)),
        c.waitWindow (pre ++ some f :: rest) =
          some { c with latest_frame := some f, new_frame_event := true } := by
  intro pre
  induction pre with
  | nil =>
      intro _ f rest
      simp only [List.nil_append, OakDCamera.waitWindow]
      rw [if_neg (by simp [hev])]
      exact waitWindow_of_event rfl rest
  | cons p pre' ih =>
      intro hall f rest
      have hp : p = none := hall p (List.mem_cons_self _ _)
      subst hp
      simp only [List.cons_append, OakDCamera.waitWindow]
      rw [if_neg (by simp [hev])]
      rw [show c.applyPub none = c from rfl]
      exact ih (fun q hq => hall q (List.mem_cons_of_mem _ hq)) f rest

lemma readCams_ok (cams : List (String × OakDCamera))
    (hc : ∀ nc ∈ cams, nc.2.is_connected = true) :
    ∃ obs cams' tr, readCams cams = (Except.ok obs, cams', tr) ∧
      List.Forall₂
        (fun (nc : String × OakDCamera) (o : String × ObsVal) =>
          o.1 = nc.1 ∧ ∃ dev, nc.2.device = some dev ∧
            o.2 = ObsVal.img (cvtBGR2RGB (dev.frames nc.2.frames_read)))
        cams obs := by
  induction cams with
  | nil => exact ⟨[], [], [], rfl, List.Forall₂.nil⟩
  | cons nc rest ih =>
      obtain ⟨n, cam⟩ := nc
      obtain ⟨dev, hdev⟩ :=
        device_some_of_connected (hc (n, cam) (List.mem_cons_self _ _))
      have hdev' : cam.device = some dev := hdev
      obtain ⟨obs, cams', tr, hrec, hfa⟩ :=
        ih fun nc hm => hc nc (List.mem_cons_of_mem _ hm)
      refine ⟨(n, ObsVal.img (cvtBGR2RGB (dev.frames cam.frames_read))) :: obs,
        (n, { cam with frames_read := cam.frames_read + 1 }) :: cams',
        SdkCall.daiQueueGet :: tr, ?_, ?_⟩
      · simp only [readCams, OakDCamera.read, hdev', hrec]
        rfl
      · exact List.Forall₂.cons ⟨rfl, dev, hdev, rfl⟩ hfa

lemma readLoopStep_live (c : OakDCamera) (dev : DaiDevice)
    (hdev : c.device = some dev) (hstop : c.stop_event_set = false) :
    c.readLoopStep =
      ({ c with frames_read := c.frames_read + 1,
                latest_frame := some (cvtBGR2RGB (dev.frames c.frames_read)),
                new_frame_event := true }, true) := by
  simp only [OakDCamera.readLoopStep, OakDCamera.read, hdev, hstop]
  rfl

lemma send_action_connected_none
    (esgp : List (String × (ℤ × ℤ)) → MaxRelTarget → List (String × ℤ))
    (r : Ned2Follower) (rb : NiryoRobot) (action : List (String × ℤ))
    (hconn : r.is_connected = true) (hrb : r.robot = some rb)
    (hmrt : r.config.max_relative_target = none) :
    Ned2Follower.send_action esgp action r =
      (Except.ok
         ((extractGoalPos action).map fun kv => (addPos kv.1, kv.2)),
       r,
       [SdkCall.niryoMoveJoints
          ((dlookup "joint_1" (extractGoalPos action)).getD 0)
          ((dlookup "joint_2" (extractGoalPos action)).getD 0)
          ((dlookup "joint_3" (extractGoalPos action)).getD 0)
          ((dlookup "joint_4" (extractGoalPos action)).getD 0)
          ((dlookup "joint_5" (extractGoalPos action)).getD 0)
          ((dlookup "joint_6" (extractGoalPos action)).getD 0)]) := by
  have hconn' : (!r.is_connected) = false := by rw [hconn]; rfl
  simp only [Ned2Follower.send_action, hconn', Bool.false_eq_true,
    if_false, hrb, hmrt]
  rfl

lemma send_action_connected_some
    (esgp : List (String × (ℤ × ℤ)) → MaxRelTarget → List (String × ℤ))
    (r : Ned2Follower) (rb : NiryoRobot) (action : List (String × ℤ))
    (m : MaxRelTarget) (pairs : List (String × (ℤ × ℤ)))
    (hconn : r.is_connected = true) (hrb : r.robot = some rb)
    (hmrt : r.config.max_relative_target = some m)
    (hpairs : pairWithPresent (presentPos rb) (extractGoalPos action) =
      Except.ok pairs) :
    Ned2Follower.send_action esgp action r =
      (Except.ok ((esgp pairs m).map fun kv => (addPos kv.1, kv.2)),
       r,
       [SdkCall.niryoGetJoints,
        SdkCall.niryoMoveJoints
          ((dlookup "joint_1" (esgp pairs m)).getD 0)
          ((dlookup "joint_2" (esgp pairs m)).getD 0)
          ((dlookup "joint_3" (esgp pairs m)).getD 0)
          ((dlookup "joint_4" (esgp pairs m)).getD 0)
          ((dlookup "joint_5" (esgp pairs m)).getD 0)
          ((dlookup "joint_6" (esgp pairs m)).getD 0)]) := by
  have hconn' : (!r.is_connected) = false := by rw [hconn]; rfl
  simp only [Ned2Follower.send_action, hconn', Bool.false_eq_true,
    if_false, hrb, hmrt, hpairs]
  rfl

lemma send_action_connected_some_err
    (esgp : List (String × (ℤ × ℤ)) → MaxRelTarget → List (String × ℤ))
    (r : Ned2Follower) (rb : NiryoRobot) (action : List (String × ℤ))
    (m : MaxRelTarget) (e : DevErr)
    (hconn : r.is_connected = true) (hrb : r.robot = some rb)
    (hmrt : r.config.max_relative_target = some m)
    (hpairs : pairWithPresent (presentPos rb) (extractGoalPos action) =
      Except.error e) :
    Ned2Follower.send_action esgp action r =
      (Except.error e, r, [SdkCall.niryoGetJoints]) := by
  have hconn' : (!r.is_connected) = false := by rw [hconn]; rfl
  simp only [Ned2Follower.send_action, hconn', Bool.false_eq_true,
    if_false, hrb, hmrt, hpairs]

lemma moveJointsArgs_get (goal : List (String × ℤ)) (i : Fin 6) :
    [(dlookup "joint_1" goal).getD 0, (dlookup "joint_2" goal).getD 0,
     (dlookup "joint_3" goal).getD 0, (dlookup "joint_4" goal).getD 0,
     (dlookup "joint_5" goal).getD 0,
     (dlookup "joint_6" goal).getD 0].get i =
      (dlookup (jointNames.get i) goal).getD 0 := by
  fin_cases i <;> rfl

/-! ## Claim theorems -/

/-- C1: for every driver state, `OakDCamera.connect` and
`Ned2Follower.connect` raise `DeviceAlreadyConnectedError` when
`is_connected` is already true, and `OakDCamera.read`,
`OakDCamera.async_read`, `OakDCamera.disconnect`,
`Ned2Follower.get_observation`, `Ned2Follower.send_action` and
`Ned2Follower.disconnect` raise `DeviceNotConnectedError` when
`is_connected` is false; in each such error case the state is untouched
and the vendor SDK trace is empty. -/
theorem C1_lifecycle_guards :
    (∀ (c : OakDCamera) (warmup : Bool) (dev : DaiDevice),
        c.is_connected = true →
        OakDCamera.connect warmup dev c =
          (Except.error DevErr.alreadyConnected, c, [])) ∧
    (∀ c : OakDCamera, c.is_connected = false →
        c.read = (Except.error DevErr.notConnected, c, [])) ∧
    (∀ (c : OakDCamera) (pubs : List (Option Frame)),
        c.is_connected = false →
        OakDCamera.async_read pubs c =
          (Except.error DevErr.notConnected, c, [])) ∧
    (∀ c : OakDCamera, c.is_connected = false →
        c.disconnect = (Except.error DevErr.notConnected, c, [])) ∧
    (∀ (r : Ned2Follower) (calibrate : Bool) (newRobot : NiryoRobot)
        (devFor : String → DaiDevice),
        r.is_connected = true →
        Ned2Follower.connect calibrate newRobot devFor r =
          (Except.error DevErr.alreadyConnected, r, [])) ∧
    (∀ r : Ned2Follower, r.is_connected = false →
        r.get_observation = (Except.error DevErr.notConnected, r, [])) ∧
    (∀ (r : Ned2Follower)
        (esgp : List (String × (ℤ × ℤ)) → MaxRelTarget → List (String × ℤ))
        (action : List (String × ℤ)),
        r.is_connected = false →
        Ned2Follower.send_action esgp action r =
          (Except.error DevErr.notConnected, r, [])) ∧
    (∀ r : Ned2Follower, r.is_connected = false →
        r.disconnect = (Except.error DevErr.notConnected, r, [])) := by
  refine ⟨?_, ?_, ?_, ?_, ?_, ?_, ?_, ?_⟩
  · intro c warmup dev h
    simp [OakDCamera.connect, h]
  · intro c h
    simp [OakDCamera.read, device_none_of_not_connected h]
  · intro c pubs h
    simp [OakDCamera.async_read, h]
  · intro c h
    simp [OakDCamera.disconnect, h]
  · intro r calibrate newRobot devFor h
    simp [Ned2Follower.connect, h]
  · intro r h
    simp [Ned2Follower.get_observation, h]
  · intro r esgp action h
    simp [Ned2Follower.send_action, h]
  · intro r h
    simp [Ned2Follower.disconnect, h]

/-- Witness for C1: the guards fire on concrete connected/disconnected
driver states. -/
theorem C1_lifecycle_guards_witness :
    OakDCamera.connect true dev0 camConnected =
      (Except.error DevErr.alreadyConnected, camConnected, []) ∧
    camDisconnected.read =
      (Except.error DevErr.notConnected, camDisconnected, []) ∧
    OakDCamera.async_read [] camDisconnected =
      (Except.error DevErr.notConnected, camDisconnected, []) ∧
    camDisconnected.disconnect =
      (Except.error DevErr.notConnected, camDisconnected, []) ∧
    Ned2Follower.connect true rb0 (fun _ => dev0) nedConnected =
      (Except.error DevErr.alreadyConnected, nedConnected, []) ∧
    nedDisconnected.get_observation =
      (Except.error DevErr.notConnected, nedDisconnected, []) ∧
    Ned2Follower.send_action esgpId actionSample nedDisconnected =
      (Except.error DevErr.notConnected, nedDisconnected, []) ∧
    nedDisconnected.disconnect =
      (Except.error DevErr.notConnected, nedDisconnected, []) :=
  ⟨C1_lifecycle_guards.1 camConnected true dev0 rfl,
   C1_lifecycle_guards.2.1 camDisconnected rfl,
   C1_lifecycle_guards.2.2.1 camDisconnected [] rfl,
   C1_lifecycle_guards.2.2.2.1 camDisconnected rfl,
   C1_lifecycle_guards.2.2.2.2.1 nedConnected true rb0 (fun _ => dev0) rfl,
   C1_lifecycle_guards.2.2.2.2.2.1 nedDisconnected rfl,
   C1_lifecycle_guards.2.2.2.2.2.2.1 nedDisconnected esgpId actionSample rfl,
   C1_lifecycle_guards.2.2.2.2.2.2.2 nedDisconnected rfl⟩

/-- C9: `is_calibrated` returns `True` whenever the robot handle is
`None`, and the negation of the vendor `need_calibration` query when a
handle exists. -/
theorem C9_is_calibrated :
    ∀ r : Ned2Follower,
      (r.robot = none → r.is_calibrated = true) ∧
      (∀ rb : NiryoRobot, r.robot = some rb →
        r.is_calibrated = !rb.needs_calibration) := by
  intro r
  constructor
  · intro h
    simp [Ned2Follower.is_calibrated, h]
  · intro rb h
    simp [Ned2Follower.is_calibrated, h]

/-- Witness for C9: a fresh follower counts as calibrated; a connected
one answers the negated vendor flag. -/
theorem C9_is_calibrated_witness :
    nedDisconnected.is_calibrated = true ∧
    nedConnected.is_calibrated = !rb0.needs_calibration :=
  ⟨(C9_is_calibrated nedDisconnected).1 rfl,
   (C9_is_calibrated nedConnected).2 rb0 rfl⟩

/-- C10: a follower with a robot handle but a disconnected camera is
not `is_connected`, and `disconnect` then raises
`DeviceNotConnectedError` leaving the state unchanged, with no vendor
SDK call (in particular `close_connection` is not called and the robot
handle survives). -/
theorem C10_disconnect_guard :
    ∀ (r : Ned2Follower) (rb : NiryoRobot), r.robot = some rb →
      ∀ nc ∈ r.cameras, nc.2.is_connected = false →
      r.is_connected = false ∧
        r.disconnect = (Except.error DevErr.notConnected, r, []) := by
  intro r rb _ nc hm hdis
  have hconn : r.is_connected = false := by
    unfold Ned2Follower.is_connected
    have : r.cameras.all (fun nc => nc.2.is_connected) = false := by
      rw [List.all_eq_false]
      exact ⟨nc, hm, by simp [hdis]⟩
    simp [this]
  exact ⟨hconn, by simp [Ned2Follower.disconnect, hconn]⟩

/-- Witness for C10: a follower holding a robot handle next to a
disconnected camera rejects `disconnect` untouched. -/
theorem C10_disconnect_guard_witness :
    nedHalf.is_connected = false ∧
    nedHalf.disconnect = (Except.error DevErr.notConnected, nedHalf, []) :=
  C10_disconnect_guard nedHalf rb0 rfl ("top", camDisconnected)
    (List.mem_singleton.mpr rfl) rfl

/-- C7: for followers as built by `__init__`, `observation_features` is
the six float-typed motor features followed by one `(height, width, 3)`
shape per configured camera, and `action_features` is exactly the six
motor features. -/
theorem C7_features :
    ∀ cfg : Ned2FollowerConfig, (cfg.cameras.map Prod.fst).Nodup →
      (Ned2Follower.init cfg).observation_features =
        [("joint_1.pos", FeatureTy.float), ("joint_2.pos", FeatureTy.float),
         ("joint_3.pos", FeatureTy.float), ("joint_4.pos", FeatureTy.float),
         ("joint_5.pos", FeatureTy.float), ("joint_6.pos", FeatureTy.float)]
          ++ cfg.cameras.map
              (fun nc => (nc.1, FeatureTy.shape nc.2.height nc.2.width 3)) ∧
      (Ned2Follower.init cfg).action_features =
        [("joint_1.pos", FeatureTy.float), ("joint_2.pos", FeatureTy.float),
         ("joint_3.pos", FeatureTy.float), ("joint_4.pos", FeatureTy.float),
         ("joint_5.pos", FeatureTy.float),
         ("joint_6.pos", FeatureTy.float)] := by
  intro cfg hnd
  have h2 : (Ned2Follower.init cfg).cameras_ft =
      cfg.cameras.map
        (fun nc => (nc.1, FeatureTy.shape nc.2.height nc.2.width 3)) := by
    unfold Ned2Follower.cameras_ft Ned2Follower.init
    simp only [List.map_map]
    apply List.map_congr_left
    intro nc hm
    simp only [Function.comp_apply]
    rw [dlookup_mem_of_nodup hnd hm]
  constructor
  · unfold Ned2Follower.observation_features
    rw [h2]
    rfl
  · rfl

/-- Witness for C7: the feature dictionaries of a follower built from
the default configuration. -/
theorem C7_features_witness :
    (Ned2Follower.init Ned2FollowerConfig.default).observation_features =
      [("joint_1.pos", FeatureTy.float), ("joint_2.pos", FeatureTy.float),
       ("joint_3.pos", FeatureTy.float), ("joint_4.pos", FeatureTy.float),
       ("joint_5.pos", FeatureTy.float), ("joint_6.pos", FeatureTy.float)]
        ++ Ned2FollowerConfig.default.cameras.map
            (fun nc => (nc.1, FeatureTy.shape nc.2.height nc.2.width 3)) ∧
    (Ned2Follower.init Ned2FollowerConfig.default).action_features =
      [("joint_1.pos", FeatureTy.float), ("joint_2.pos", FeatureTy.float),
       ("joint_3.pos", FeatureTy.float), ("joint_4.pos", FeatureTy.float),
       ("joint_5.pos", FeatureTy.float),
       ("joint_6.pos", FeatureTy.float)] :=
  C7_features Ned2FollowerConfig.default (by decide)

/-- C5: on a connected follower, `get_observation` returns exactly the
six `joint_k.pos` entries carrying the vendor joint angles in joint
order, followed by one entry per configured camera carrying that
current frame of that camera (the next frame of its device stream, converted
to RGB). -/
theorem C5_get_observation :
    ∀ (r : Ned2Follower) (rb : NiryoRobot), r.robot = some rb →
      (∀ nc ∈ r.cameras, nc.2.is_connected = true) →
      ∃ camObs : List (String × ObsVal),
        (r.get_observation).1 = Except.ok
          ([("joint_1.pos", ObsVal.num (rb.joints 0)),
            ("joint_2.pos", ObsVal.num (rb.joints 1)),
            ("joint_3.pos", ObsVal.num (rb.joints 2)),
            ("joint_4.pos", ObsVal.num (rb.joints 3)),
            ("joint_5.pos", ObsVal.num (rb.joints 4)),
            ("joint_6.pos", ObsVal.num (rb.joints 5))] ++ camObs) ∧
        List.Forall₂
          (fun (nc : String × OakDCamera) (o : String × ObsVal) =>
            o.1 = nc.1 ∧ ∃ dev, nc.2.device = some dev ∧
              o.2 = ObsVal.img (cvtBGR2RGB (dev.frames nc.2.frames_read)))
          r.cameras camObs := by
  intro r rb hrb hc
  obtain ⟨obs, cams', tr, hrec, hfa⟩ := readCams_ok r.cameras hc
  have hconn : r.is_connected = true := by
    unfold Ned2Follower.is_connected
    rw [hrb]
    simp only [Option.isSome_some, Bool.true_and]
    rw [List.all_eq_true]
    exact hc
  refine ⟨obs, ?_, hfa⟩
  simp only [Ned2Follower.get_observation, hconn, hrb, hrec]
  rfl

/-- Witness for C5: reading the connected sample follower yields the
six joint entries of `rb0` and the first RGB frame of its camera. -/
theorem C5_get_observation_witness :
    ∃ camObs : List (String × ObsVal),
      (nedConnected.get_observation).1 = Except.ok
        ([("joint_1.pos", ObsVal.num (rb0.joints 0)),
          ("joint_2.pos", ObsVal.num (rb0.joints 1)),
          ("joint_3.pos", ObsVal.num (rb0.joints 2)),
          ("joint_4.pos", ObsVal.num (rb0.joints 3)),
          ("joint_5.pos", ObsVal.num (rb0.joints 4)),
          ("joint_6.pos", ObsVal.num (rb0.joints 5))] ++ camObs) ∧
      List.Forall₂
        (fun (nc : String × OakDCamera) (o : String × ObsVal) =>
          o.1 = nc.1 ∧ ∃ dev, nc.2.device = some dev ∧
            o.2 = ObsVal.img (cvtBGR2RGB (dev.frames nc.2.frames_read)))
        nedConnected.cameras camObs :=
  C5_get_observation nedConnected rb0 rfl
    (fun nc hm => by
      rw [List.mem_singleton.mp hm]
      rfl)

/-- C4: the background read loop exits at once when the stop event is
set or the device is disconnected; otherwise each iteration reads a
frame, overwrites the single slot with it and sets the new-frame
event, so after any `n + 1` live iterations the slot holds exactly the
most recent frame of the device stream with the event set. -/
theorem C4_read_loop :
    (∀ c : OakDCamera, c.stop_event_set = true →
        c.readLoopStep = (c, false)) ∧
    (∀ c : OakDCamera, c.stop_event_set = false → c.is_connected = false →
        c.readLoopStep = (c, false)) ∧
    (∀ (c : OakDCamera) (dev : DaiDevice) (n : Nat),
        c.device = some dev → c.stop_event_set = false →
        (OakDCamera.readLoopRun (n + 1) c).latest_frame =
            some (cvtBGR2RGB (dev.frames (c.frames_read + n))) ∧
          (OakDCamera.readLoopRun (n + 1) c).new_frame_event = true) := by
  refine ⟨?_, ?_, ?_⟩
  · intro c h
    simp [OakDCamera.readLoopStep, h]
  · intro c hstop hconn
    simp [OakDCamera.readLoopStep, OakDCamera.read, hstop,
      device_none_of_not_connected hconn]
  · intro c dev n
    induction n generalizing c with
    | zero =>
        intro hdev hstop
        unfold OakDCamera.readLoopRun
        rw [readLoopStep_live c dev hdev hstop]
        simp [OakDCamera.readLoopRun]
    | succ m ih =>
        intro hdev hstop
        have hstep :
            OakDCamera.readLoopRun (m + 1 + 1) c =
              OakDCamera.readLoopRun (m + 1)
                { c with frames_read := c.frames_read + 1,
                         latest_frame :=
                           some (cvtBGR2RGB (dev.frames c.frames_read)),
                         new_frame_event := true } := by
          unfold OakDCamera.readLoopRun
          rw [readLoopStep_live c dev hdev hstop]
          rfl
        rw [hstep]
        have := ih
          { c with frames_read := c.frames_read + 1,
                   latest_frame :=
                     some (cvtBGR2RGB (dev.frames c.frames_read)),
                   new_frame_event := true } hdev hstop
        simpa [Nat.add_assoc, Nat.add_comm 1 m] using this

/-- Witness for C4: on the connected sample camera the loop exits when
stopped, the fresh camera exits for want of a device, and three live
iterations leave frame number 2 in the slot. -/
theorem C4_read_loop_witness :
    OakDCamera.readLoopStep
        { camConnected with stop_event_set := true } =
      ({ camConnected with stop_event_set := true }, false) ∧
    camDisconnected.readLoopStep = (camDisconnected, false) ∧
    ((OakDCamera.readLoopRun 3 camConnected).latest_frame =
        some (cvtBGR2RGB (dev0.frames 2)) ∧
      (OakDCamera.readLoopRun 3 camConnected).new_frame_event = true) :=
  ⟨C4_read_loop.1 { camConnected with stop_event_set := true } rfl,
   C4_read_loop.2.1 camDisconnected rfl rfl,
   C4_read_loop.2.2 camConnected dev0 2 rfl rfl⟩

/-- C3 (counterexample to the claim as stated): on a connected camera
whose new-frame event is still set from a publication made *before*
the wait window, `async_read` over a window with no publication at all
returns the slot frame instead of raising `TimeoutError` — so
"raises TimeoutError if and only if no new frame has been published
within timeout_ms" fails in the right-to-left direction. -/
theorem C3_counterexample :
    (OakDCamera.async_read [none] camPre).1 = Except.ok (some framePre) ∧
      (OakDCamera.async_read [none] camPre).1 ≠
        Except.error DevErr.timeout := by
  constructor
  · rfl
  · intro h
    rw [show (OakDCamera.async_read [none] camPre).1 =
        Except.ok (some framePre) from rfl] at h
    exact Except.noConfusion h

/-- C3 (amended): on a connected camera, `async_read` raises
`TimeoutError` iff the new-frame event is clear at call time and no
frame is published during the wait window; whenever it returns a frame
it clears the new-frame event; and when the event starts clear it
returns precisely the first frame published during the window. -/
theorem C3_async_read_timeout :
    ∀ c : OakDCamera, c.is_connected = true →
      (∀ pubs : List (Option Frame),
        (OakDCamera.async_read pubs c).1 = Except.error DevErr.timeout ↔
          (c.new_frame_event = false ∧ ∀ p ∈ pubs, p = none)) ∧
      (∀ (pubs : List (Option Frame)) (res : Option Frame),
        (OakDCamera.async_read pubs c).1 = Except.ok res →
          (OakDCamera.async_read pubs c).2.1.new_frame_event = false) ∧
      (∀ (pre rest : List (Option Frame)) (f : Frame),
        (∀ p ∈ pre, p = none) → c.new_frame_event = false →
          (OakDCamera.async_read (pre ++ some f :: rest) c).1 =
            Except.ok (some f)) := by
  intro c hconn
  obtain ⟨hev, _, _⟩ := start_read_thread_fields c
  have hconn' : (!c.is_connected) = false := by rw [hconn]; rfl
  refine ⟨?_, ?_, ?_⟩
  · intro pubs
    simp only [OakDCamera.async_read, hconn', Bool.false_eq_true,
      if_false]
    cases hw : c.start_read_thread.waitWindow pubs with
    | none =>
        rw [waitWindow_none_iff] at hw
        rw [← hev]
        constructor
        · intro _
          exact hw
        · intro _
          rfl
    | some c2 =>
        constructor
        · intro h
          exact Except.noConfusion h
        · intro h
          rw [← hev] at h
          rw [(waitWindow_none_iff pubs c.start_read_thread).mpr h] at hw
          cases hw
  · intro pubs res h
    simp only [OakDCamera.async_read, hconn', Bool.false_eq_true,
      if_false] at h ⊢
    cases hw : c.start_read_thread.waitWindow pubs with
    | none =>
        rw [hw] at h
        exact Except.noConfusion h
    | some c2 =>
        rfl
  · intro pre rest f hpre hevc
    have hev' : c.start_read_thread.new_frame_event = false := by
      rw [hev, hevc]
    simp only [OakDCamera.async_read, hconn', Bool.false_eq_true,
      if_false]
    rw [waitWindow_first_pub hev' pre hpre f rest]

/-- Witness for C3 (amended): concrete windows on the connected sample
camera — a silent window times out, a window publishing `framePre`
first returns it with the event cleared. -/
theorem C3_async_read_timeout_witness :
    ((OakDCamera.async_read [none, none] camConnected).1 =
        Except.error DevErr.timeout ↔
      (camConnected.new_frame_event = false ∧
        ∀ p ∈ [(none : Option Frame), none], p = none)) ∧
    ((OakDCamera.async_read [some framePre] camConnected).1 =
        Except.ok (some framePre) →
      (OakDCamera.async_read [some framePre]
          camConnected).2.1.new_frame_event = false) ∧
    (OakDCamera.async_read ([none] ++ some framePre :: [])
        camConnected).1 = Except.ok (some framePre) :=
  ⟨(C3_async_read_timeout camConnected rfl).1 [none, none],
   (C3_async_read_timeout camConnected rfl).2.1 [some framePre]
     (some framePre),
   (C3_async_read_timeout camConnected rfl).2.2 [none] [] framePre
     (fun _ hp => List.mem_singleton.mp hp) rfl⟩

/-- C2: on a connected follower, when `config.max_relative_target` is
`None` (the configuration default) `send_action` commands the requested
goals unmodified — the result does not depend on the clamping helper at
all; when it is set, `send_action` reads the six present joints
(`niryoGetJoints` precedes `niryoMoveJoints` in the trace), pairs each
requested goal with its present position, and commands exactly what
`ensure_safe_goal_position` returns on those pairs. -/
theorem C2_clamping :
    ∀ (esgp : List (String × (ℤ × ℤ)) → MaxRelTarget → List (String × ℤ))
      (r : Ned2Follower) (rb : NiryoRobot) (action : List (String × ℤ)),
      r.is_connected = true → r.robot = some rb →
      (r.config.max_relative_target = none →
        (∀ esgp', Ned2Follower.send_action esgp action r =
            Ned2Follower.send_action esgp' action r) ∧
        Ned2Follower.send_action esgp action r =
          (Except.ok
             ((extractGoalPos action).map fun kv => (addPos kv.1, kv.2)),
           r,
           [SdkCall.niryoMoveJoints
              ((dlookup "joint_1" (extractGoalPos action)).getD 0)
              ((dlookup "joint_2" (extractGoalPos action)).getD 0)
              ((dlookup "joint_3" (extractGoalPos action)).getD 0)
              ((dlookup "joint_4" (extractGoalPos action)).getD 0)
              ((dlookup "joint_5" (extractGoalPos action)).getD 0)
              ((dlookup "joint_6" (extractGoalPos action)).getD 0)])) ∧
      (∀ m, r.config.max_relative_target = some m →
        ∀ pairs, pairWithPresent (presentPos rb) (extractGoalPos action) =
            Except.ok pairs →
          pairs.map (fun kv => (kv.1, kv.2.1)) = extractGoalPos action ∧
          (∀ kv ∈ pairs, dlookup kv.1 (presentPos rb) = some kv.2.2) ∧
          Ned2Follower.send_action esgp action r =
            (Except.ok ((esgp pairs m).map fun kv => (addPos kv.1, kv.2)),
             r,
             [SdkCall.niryoGetJoints,
              SdkCall.niryoMoveJoints
                ((dlookup "joint_1" (esgp pairs m)).getD 0)
                ((dlookup "joint_2" (esgp pairs m)).getD 0)
                ((dlookup "joint_3" (esgp pairs m)).getD 0)
                ((dlookup "joint_4" (esgp pairs m)).getD 0)
                ((dlookup "joint_5" (esgp pairs m)).getD 0)
                ((dlookup "joint_6" (esgp pairs m)).getD 0)])) := by
  intro esgp r rb action hconn hrb
  constructor
  · intro hmrt
    constructor
    · intro esgp'
      rw [send_action_connected_none esgp r rb action hconn hrb hmrt,
        send_action_connected_none esgp' r rb action hconn hrb hmrt]
    · exact send_action_connected_none esgp r rb action hconn hrb hmrt
  · intro m hmrt pairs hpairs
    obtain ⟨h1, h2⟩ := pairWithPresent_ok hpairs
    exact ⟨h1, h2,
      send_action_connected_some esgp r rb action m pairs hconn hrb hmrt
        hpairs⟩

/-- Witness for C2: both branches on concrete followers — the default
config commands the goals of `actionSample` unmodified, and the clamped
config routes the goal/present pairs through the helper. -/
theorem C2_clamping_witness :
    Ned2Follower.send_action esgpId actionSample nedConnected =
      (Except.ok
         ((extractGoalPos actionSample).map fun kv => (addPos kv.1, kv.2)),
       nedConnected,
       [SdkCall.niryoMoveJoints
          ((dlookup "joint_1" (extractGoalPos actionSample)).getD 0)
          ((dlookup "joint_2" (extractGoalPos actionSample)).getD 0)
          ((dlookup "joint_3" (extractGoalPos actionSample)).getD 0)
          ((dlookup "joint_4" (extractGoalPos actionSample)).getD 0)
          ((dlookup "joint_5" (extractGoalPos actionSample)).getD 0)
          ((dlookup "joint_6" (extractGoalPos actionSample)).getD 0)]) ∧
    Ned2Follower.send_action esgpId actionSample nedClamped =
      (Except.ok
         ((esgpId pairsSample (MaxRelTarget.scalar 5)).map
           fun kv => (addPos kv.1, kv.2)),
       nedClamped,
       [SdkCall.niryoGetJoints,
        SdkCall.niryoMoveJoints
          ((dlookup "joint_1"
              (esgpId pairsSample (MaxRelTarget.scalar 5))).getD 0)
          ((dlookup "joint_2"
              (esgpId pairsSample (MaxRelTarget.scalar 5))).getD 0)
          ((dlookup "joint_3"
              (esgpId pairsSample (MaxRelTarget.scalar 5))).getD 0)
          ((dlookup "joint_4"
              (esgpId pairsSample (MaxRelTarget.scalar 5))).getD 0)
          ((dlookup "joint_5"
              (esgpId pairsSample (MaxRelTarget.scalar 5))).getD 0)
          ((dlookup "joint_6"
              (esgpId pairsSample (MaxRelTarget.scalar 5))).getD 0)]) :=
  ⟨((C2_clamping esgpId nedConnected rb0 actionSample rfl rfl).1 rfl).2,
   ((C2_clamping esgpId nedClamped rb0 actionSample rfl rfl).2
       (MaxRelTarget.scalar 5) rfl pairsSample (by rfl)).2.2⟩

/-- C6: whenever `send_action` on a connected follower succeeds, it has
selected exactly the action entries whose keys end in `".pos"` with
that suffix stripped, commanded `move_joints` with the six goal values
(looked up by joint name from the possibly-clamped goals, `0` when
absent), and returned exactly those goals with the `".pos"` suffix
restored. -/
theorem C6_send_action_passthrough :
    ∀ (esgp : List (String × (ℤ × ℤ)) → MaxRelTarget → List (String × ℤ))
      (r : Ned2Follower) (rb : NiryoRobot)
      (action ret : List (String × ℤ)),
      r.is_connected = true → r.robot = some rb →
      (Ned2Follower.send_action esgp action r).1 = Except.ok ret →
      (∀ (k : String) (v : ℤ),
        (k, v) ∈ extractGoalPos action ↔ (addPos k, v) ∈ action) ∧
      ∃ goal : List (String × ℤ),
        ret = goal.map (fun kv => (addPos kv.1, kv.2)) ∧
        (Ned2Follower.send_action esgp action r).2.2.getLast? =
          some (SdkCall.niryoMoveJoints
            ((dlookup "joint_1" goal).getD 0)
            ((dlookup "joint_2" goal).getD 0)
            ((dlookup "joint_3" goal).getD 0)
            ((dlookup "joint_4" goal).getD 0)
            ((dlookup "joint_5" goal).getD 0)
            ((dlookup "joint_6" goal).getD 0)) ∧
        (r.config.max_relative_target = none →
          goal = extractGoalPos action) ∧
        (∀ m, r.config.max_relative_target = some m →
          ∃ pairs, pairWithPresent (presentPos rb) (extractGoalPos action) =
              Except.ok pairs ∧ goal = esgp pairs m) := by
  intro esgp r rb action ret hconn hrb hret
  refine ⟨fun k v => extractGoalPos_mem action k v, ?_⟩
  cases hmrt : r.config.max_relative_target with
  | none =>
      rw [send_action_connected_none esgp r rb action hconn hrb hmrt]
        at hret ⊢
      refine ⟨extractGoalPos action, (Except.ok.inj hret).symm, rfl,
        fun _ => rfl, ?_⟩
      intro m hm
      exact Option.noConfusion hm
  | some m =>
      cases hpairs : pairWithPresent (presentPos rb) (extractGoalPos action)
        with
      | error e =>
          rw [send_action_connected_some_err esgp r rb action m e hconn hrb
            hmrt hpairs] at hret
          exact Except.noConfusion hret
      | ok pairs =>
          rw [send_action_connected_some esgp r rb action m pairs hconn hrb
            hmrt hpairs] at hret ⊢
          refine ⟨esgp pairs m, (Except.ok.inj hret).symm, rfl, ?_, ?_⟩
          · intro h0
            exact Option.noConfusion h0
          · intro m' hm'
            have hmm := Option.some.inj hm'
            subst hmm
            exact ⟨pairs, rfl, rfl⟩

/-- Witness for C6: the successful `send_action` on the connected
sample follower returns the goals of `actionSample` with `.pos` restored and
ends its trace with the corresponding `move_joints` call. -/
theorem C6_send_action_passthrough_witness :
    (∀ (k : String) (v : ℤ),
      (k, v) ∈ extractGoalPos actionSample ↔
        (addPos k, v) ∈ actionSample) ∧
    ∃ goal : List (String × ℤ),
      ((extractGoalPos actionSample).map fun kv => (addPos kv.1, kv.2)) =
        goal.map (fun kv => (addPos kv.1, kv.2)) ∧
      (Ned2Follower.send_action esgpId actionSample
          nedConnected).2.2.getLast? =
        some (SdkCall.niryoMoveJoints
          ((dlookup "joint_1" goal).getD 0)
          ((dlookup "joint_2" goal).getD 0)
          ((dlookup "joint_3" goal).getD 0)
          ((dlookup "joint_4" goal).getD 0)
          ((dlookup "joint_5" goal).getD 0)
          ((dlookup "joint_6" goal).getD 0)) ∧
      (nedConnected.config.max_relative_target = none →
        goal = extractGoalPos actionSample) ∧
      (∀ m, nedConnected.config.max_relative_target = some m →
        ∃ pairs,
          pairWithPresent (presentPos rb0) (extractGoalPos actionSample) =
            Except.ok pairs ∧ goal = esgpId pairs m) :=
  C6_send_action_passthrough esgpId nedConnected rb0 actionSample
    ((extractGoalPos actionSample).map fun kv => (addPos kv.1, kv.2))
    rfl rfl (by rfl)

/-- C8: on a connected follower (with a key-preserving clamping
helper), a joint whose `joint_k.pos` key is absent from the action is
commanded to position `0` by a successful `send_action`, regardless of
its present position. -/
theorem C8_absent_joint_zero :
    ∀ (esgp : List (String × (ℤ × ℤ)) → MaxRelTarget → List (String × ℤ))
      (r : Ned2Follower) (rb : NiryoRobot)
      (action ret : List (String × ℤ)) (i : Fin 6),
      (∀ d m, (esgp d m).map Prod.fst = d.map Prod.fst) →
      r.is_connected = true → r.robot = some rb →
      (Ned2Follower.send_action esgp action r).1 = Except.ok ret →
      addPos (jointNames.get i) ∉ action.map Prod.fst →
      commandedJoint ((Ned2Follower.send_action esgp action r).2.2) i =
        some 0 := by
  intro esgp r rb action ret i hkeys hconn hrb hret habs
  have hnone : ∀ goal : List (String × ℤ),
      goal.map Prod.fst = (extractGoalPos action).map Prod.fst →
      dlookup (jointNames.get i) goal = none := by
    intro goal hg
    rw [dlookup_eq_none_iff, hg]
    intro hk
    obtain ⟨kv, hm, he⟩ := List.mem_map.mp hk
    obtain ⟨k', v⟩ := kv
    have he' : k' = jointNames.get i := he
    have hmem := (extractGoalPos_mem action k' v).mp hm
    have hin : addPos k' ∈ action.map Prod.fst :=
      List.mem_map_of_mem Prod.fst hmem
    rw [he'] at hin
    exact habs hin
  cases hmrt : r.config.max_relative_target with
  | none =>
      rw [send_action_connected_none esgp r rb action hconn hrb hmrt]
      show some _ = some 0
      rw [moveJointsArgs_get (extractGoalPos action) i,
        hnone (extractGoalPos action) rfl]
      rfl
  | some m =>
      cases hpairs : pairWithPresent (presentPos rb) (extractGoalPos action)
        with
      | error e =>
          rw [send_action_connected_some_err esgp r rb action m e hconn hrb
            hmrt hpairs] at hret
          exact Except.noConfusion hret
      | ok pairs =>
          rw [send_action_connected_some esgp r rb action m pairs hconn hrb
            hmrt hpairs]
          have h1 : pairs.map (fun kv => (kv.1, kv.2.1)) =
              extractGoalPos action := (pairWithPresent_ok hpairs).1
          have hk2 : pairs.map Prod.fst =
              (extractGoalPos action).map Prod.fst := by
            rw [← h1, List.map_map]
            rfl
          show some _ = some 0
          rw [moveJointsArgs_get (esgp pairs m) i,
            hnone (esgp pairs m) ((hkeys pairs m).trans hk2)]
          rfl

/-- Witness for C8: with `joint_1.pos` absent from the action, the
final `move_joints` call commands joint 1 to `0` even though its
present position under `rb0` is `1`. -/
theorem C8_absent_joint_zero_witness :
    commandedJoint
        ((Ned2Follower.send_action esgpId actionMissing nedConnected).2.2)
        (0 : Fin 6) = some 0 :=
  C8_absent_joint_zero esgpId nedConnected rb0 actionMissing
    [("joint_2.pos", 20)] 0
    (fun d m => by
      simp only [esgpId, List.map_map]
      rfl)
    rfl rfl (by rfl) (by decide)

end LeRobot
